import Mathlib

/-!
# Verification of the testsprite_tests scenario scripts

Shallow embedding of the six Playwright scenario scripts under
`src/testsprite_tests/` (TC005, TC006, TC008, TC011, TC013, TC014).

Every script has the same shape:

  async def run_test():
      pw = None; browser = None; context = None
      try:
          pw = await async_api.async_playwright().start()
          browser = await pw.chromium.launch(...)
          context = await browser.new_context()
          page = await context.new_page()
          await page.goto("http://localhost:8081", wait_until="commit", timeout=10000)
          try: await page.wait_for_load_state("domcontentloaded", timeout=3000)
          except async_api.Error: pass
          for frame in page.frames:
              try: await frame.wait_for_load_state("domcontentloaded", timeout=3000)
              except async_api.Error: pass
          <scenario-specific statements>
      finally:
          if context: await context.close()
          if browser: await browser.close()
          if pw: await pw.stop()

The embedding threads an explicit `ScriptState` (which resources are
non-None, plus an instrumentation trace of the externally visible actions
and a `runLog` of diagnostics the script itself records).  The external
browser world is an oracle `World` deciding which awaited operations
succeed.  Python exception flow is explicit: a statement either returns
`none` (normal completion) or `some e` (an exception `e` unwinding);
`seqM` stops at the first exception; the `finally` block is modelled by
`runScript`, where an exception raised inside the `finally` replaces the
in-flight exception and skips the rest of the `finally`, exactly as in
Python.
-/

/-- Exception values that can unwind out of a statement of the scripts. -/
inductive PExc where
  /-- A playwright `async_api.Error` (navigation timeout, click timeout,
  element-wait timeout, launch failure, close failure). -/
  | pwError
  /-- A Python `NameError` raised when an undefined name is looked up. -/
  | nameError (n : String)
  /-- A Python `AssertionError` raised by a failing `assert`. -/
  | assertError (msg : String)
deriving DecidableEq, Repr

/-- Externally visible actions performed by a script, in order. -/
inductive Event where
  | pwStarted
  | browserLaunched
  | contextCreated
  | pageCreated
  | gotoIssued (url : String)
  | loadStateWaited
  | frameWaitAttempted (i : Nat)
  | frameLoaded (i : Nat)
  | wheelIssued
  | clicked (i : Nat)
  | textRead (i : Nat)
  | assertionChecked (i : Nat) (passed : Bool)
  | assertBlockPassed
  | slept
  | contextClosed
  | browserClosed
  | pwStopped
deriving DecidableEq, Repr

/-- The final state of the page a scenario ends on.  The scripts never
read it back in their assertion blocks, which is exactly what claim C10
is about, so its concrete fields only need to make the quantification
over final page states meaningful. -/
structure PageState where
  url : String
  content : String
deriving DecidableEq, Repr

/-- State of one `run_test` execution: which of the three resources are
currently bound to a non-`None` value, the trace of externally visible
events, and the diagnostics the script itself records.  The scripts
contain no logging or result-collecting statement, so no operation of
this file ever appends to `runLog`; the field exists so that statements
about a failure being "recorded" can be expressed. -/
structure ScriptState where
  pw : Bool := false
  browser : Bool := false
  context : Bool := false
  events : List Event := []
  runLog : List String := []
deriving DecidableEq, Repr

def initState : ScriptState := {}

def emit (ev : Event) (s : ScriptState) : ScriptState :=
  { s with events := s.events ++ [ev] }

/-- The oracle for the external browser engine: which awaited operation
succeeds, what text a locator read returns (`none` models the locator
timing out), and the final page state. -/
structure World where
  startOk : Bool
  launchOk : Bool
  newContextOk : Bool
  newPageOk : Bool
  gotoOk : Nat → Bool
  mainLoadOk : Bool
  frames : List Bool
  clickOk : Nat → Bool
  textContent : Nat → Option String
  finalPage : PageState
  contextCloseOk : Bool
  browserCloseOk : Bool
  pwStopOk : Bool

/-- A statement of the script: run on a state, it either completes
normally or unwinds with an exception. -/
abbrev M := ScriptState → Option PExc × ScriptState

def pureOk : M := fun s => (none, s)

/-- Python sequencing: the second statement runs only if the first one
completed without an exception. -/
def seqM (a b : M) : M := fun s =>
  match a s with
  | (some e, s') => (some e, s')
  | (none, s') => b s'

/-- `try: <a> except async_api.Error: pass` — the exception, if any, is
swallowed and nothing else happens. -/
def tryPass (a : M) : M := fun s =>
  match a s with
  | (some _, s') => (none, s')
  | (none, s') => (none, s')

/-- `pw = await async_api.async_playwright().start()` -/
def startPw (w : World) : M := fun s =>
  if w.startOk then (none, { emit .pwStarted s with pw := true })
  else (some .pwError, s)

/-- `browser = await pw.chromium.launch(headless=True, args=[...])` -/
def launchBrowser (w : World) : M := fun s =>
  if w.launchOk then (none, { emit .browserLaunched s with browser := true })
  else (some .pwError, s)

/-- `context = await browser.new_context()` followed by
`context.set_default_timeout(5000)` (pure configuration). -/
def newContext (w : World) : M := fun s =>
  if w.newContextOk then (none, { emit .contextCreated s with context := true })
  else (some .pwError, s)

/-- `page = await context.new_page()` -/
def newPage (w : World) : M := fun s =>
  if w.newPageOk then (none, emit .pageCreated s)
  else (some .pwError, s)

/-- `await page.goto(url, timeout=...)`, the `i`-th goto of the script.
Unguarded in the scripts: a navigation timeout unwinds. -/
def gotoStep (w : World) (i : Nat) (url : String) : M := fun s =>
  if w.gotoOk i then (none, emit (.gotoIssued url) s)
  else (some .pwError, s)

/-- `await page.wait_for_load_state("domcontentloaded", timeout=3000)`
before the surrounding try/except is applied. -/
def rawMainLoadWait (w : World) : M := fun s =>
  if w.mainLoadOk then (none, emit .loadStateWaited s)
  else (some .pwError, s)

def mainLoadWait (w : World) : M := tryPass (rawMainLoadWait w)

/-- `await frame.wait_for_load_state("domcontentloaded", timeout=3000)`
for the `i`-th enumerated frame, before the surrounding try/except. -/
def rawFrameWait (ok : Bool) (i : Nat) : M := fun s =>
  let s1 := emit (.frameWaitAttempted i) s
  if ok then (none, emit (.frameLoaded i) s1)
  else (some .pwError, s1)

/-- `for frame in page.frames: try: ... except async_api.Error: pass` -/
def frameLoopAux : List Bool → Nat → M
  | [], _ => pureOk
  | ok :: rest, i => seqM (tryPass (rawFrameWait ok i)) (frameLoopAux rest (i + 1))

def frameLoop (w : World) : M := frameLoopAux w.frames 0

/-- The scaffolding shared by every script up to and including the frame
loop: start, launch, new_context, new_page, goto of the base URL, the
guarded main-page load wait, and the guarded per-frame waits. -/
def prologue (w : World) : M :=
  seqM (startPw w)
    (seqM (launchBrowser w)
      (seqM (newContext w)
        (seqM (newPage w)
          (seqM (gotoStep w 0 ("http://localhost:8081"))
            (seqM (mainLoadWait w) (frameLoop w))))))

def prologueOk (w : World) : Bool :=
  w.startOk && w.launchOk && w.newContextOk && w.newPageOk && w.gotoOk 0

/-- `await page.mouse.wheel(0, window.innerHeight)` — Python first
evaluates the argument expression `window.innerHeight`, which looks up
the name `window` in the function scope.  `names` is the set of names
the script ever binds; if `window` is not among them, the lookup raises
`NameError` before any wheel call is issued. -/
def wheelWindow (names : List String) : M := fun s =>
  if ("window") ∈ names then (none, emit .wheelIssued s)
  else (some (.nameError ("window")), s)

/-- `await page.wait_for_timeout(3000); await elem.click(timeout=5000)`
for the `i`-th click of the script (the locator construction preceding
it is lazy and performs no I/O; `wait_for_timeout` is an infallible
sleep).  Unguarded in the scripts: a click timeout on an absent element
unwinds. -/
def clickStep (w : World) (i : Nat) : M := fun s =>
  if w.clickOk i then (none, emit (.clicked i) s)
  else (some .pwError, s)

/-- Substring test used to model Python `needle in haystack`. -/
def strContainsSub (hay needle : String) : Bool :=
  hay.toList.tails.any fun t => needle.toList.isPrefixOf t

/-- `x = await page.locator(...).text_content()` followed by
`assert needle in x, msg` — the `i`-th locator read of the script.
`w.textContent i = none` models the locator timing out (which unwinds
as a playwright error before the assert is reached). -/
def readTextAssert (w : World) (i : Nat) (needle : String) : M := fun s =>
  match w.textContent i with
  | none => (some .pwError, s)
  | some t =>
    let s1 := emit (.textRead i) s
    if strContainsSub t needle then (none, emit (.assertionChecked i true) s1)
    else (some (.assertError needle), emit (.assertionChecked i false) s1)

/-- `assert False, msg` — unconditional. -/
def assertFalseStep (msg : String) : M := fun s => (some (.assertError msg), s)

/-- `await asyncio.sleep(5)` -/
def sleepStep : M := fun s => (none, emit .slept s)

/-- One guarded close of the `finally` block: `if <resource>: await
<resource>.close()`.  `acquired` is whether the resource is non-None,
`ok` whether the close succeeds.  A failing close unwinds. -/
def closeStep (acquired ok : Bool) (ev : Event) : M := fun s =>
  if acquired then
    (if ok then (none, emit ev s) else (some .pwError, s))
  else (none, s)

/-- The `finally` block: close context, then browser, then stop pw, each
only if non-None, in that order.  There is no exception handler inside
the block, so a failing close unwinds and skips the remaining closes. -/
def teardown (w : World) : M := fun s =>
  seqM (closeStep s.context w.contextCloseOk .contextClosed)
    (seqM (closeStep s.browser w.browserCloseOk .browserClosed)
      (closeStep s.pw w.pwStopOk .pwStopped)) s

/-- Combine the result of the try body with the `finally` block: the
`finally` always runs; if it raises, its exception replaces the body
exception (Python semantics for an exception raised inside `finally`). -/
def afterTeardown (r : Option PExc × ScriptState) (w : World) : Option PExc × ScriptState :=
  match teardown w r.2 with
  | (some e, s') => (some e, s')
  | (none, s') => (r.1, s')

/-- A whole `run_test()` execution: the try body, then the `finally`. -/
def runScript (body : World → M) (w : World) : Option PExc × ScriptState :=
  afterTeardown (body w initState) w

/-! ## The six scripts

Each body is the sequence of statements inside the try block, after the
shared prologue, transcribed statement by statement from the source.
`tcNNNNames` is the set of names the script ever binds in the scope of
`run_test` (module imports, the function itself, and every name assigned
inside it); `window` is bound by none of the scripts and is not a Python
builtin. -/

def tc005Names : List String :=
  ["asyncio", "async_api", "run_test", "pw", "browser", "context", "page", "frame"]

def tc008Names : List String :=
  ["asyncio", "async_api", "run_test", "pw", "browser", "context", "page", "frame", "elem"]

def tc011Names : List String :=
  ["asyncio", "async_api", "run_test", "pw", "browser", "context", "page", "frame"]

def tc013Names : List String :=
  ["asyncio", "async_api", "run_test", "pw", "browser", "context", "page", "frame", "elem",
   "response_status", "logged_in_user_id", "returned_user_id", "aggregated_data",
   "pii_fields", "field"]

/-- TC005_SOS_Crisis_Support_Activation.py: three scroll attempts, six
further navigations, then an unconditional failing assert. -/
def tc005Body (w : World) : M :=
  seqM (prologue w)
    (seqM (wheelWindow tc005Names)
      (seqM (gotoStep w 1 ("http://localhost:8081/home"))
        (seqM (gotoStep w 2 ("http://localhost:8081/dashboard"))
          (seqM (wheelWindow tc005Names)
            (seqM (gotoStep w 3 ("http://localhost:8081"))
              (seqM (gotoStep w 4 ("http://localhost:8081"))
                (seqM (wheelWindow tc005Names)
                  (seqM (gotoStep w 5 ("http://localhost:8081"))
                    (seqM (assertFalseStep ("Test failed: SOS floating button or crisis support screen did not behave as expected."))
                      sleepStep)))))))))

def runTC005 (w : World) : Option PExc × ScriptState := runScript tc005Body w

def tc006Needle0 : String := "You need to enable JavaScript to run this app."

def tc006Needle1 : String := "Data synchronized successfully"

def tc006Needle2 : String := "Conflict resolved"

/-- TC006_Offline_Mode_Mood_Tracking_and_Exercise_Playback.py: one click
inside the reCAPTCHA frame, then three locator-read-and-assert
statements, then a sleep. -/
def tc006Body (w : World) : M :=
  seqM (prologue w)
    (seqM (clickStep w 0)
      (seqM (readTextAssert w 0 tc006Needle0)
        (seqM (readTextAssert w 1 tc006Needle1)
          (seqM (readTextAssert w 2 tc006Needle2) sleepStep))))

def runTC006 (w : World) : Option PExc × ScriptState := runScript tc006Body w

/-- TC008_Notification_Delivery_and_Contextual_Therapeutic_Messaging.py:
four scroll attempts, a navigation to /settings, eight CAPTCHA clicks,
a navigation back, then an unconditional failing assert. -/
def tc008Body (w : World) : M :=
  seqM (prologue w)
    (seqM (wheelWindow tc008Names)
      (seqM (wheelWindow tc008Names)
        (seqM (wheelWindow tc008Names)
          (seqM (wheelWindow tc008Names)
            (seqM (gotoStep w 1 ("http://localhost:8081/settings"))
              (seqM (clickStep w 0)
                (seqM (clickStep w 1)
                  (seqM (clickStep w 2)
                    (seqM (clickStep w 3)
                      (seqM (clickStep w 4)
                        (seqM (clickStep w 5)
                          (seqM (clickStep w 6)
                            (seqM (clickStep w 7)
                              (seqM (gotoStep w 2 ("http://localhost:8081"))
                                (seqM (assertFalseStep ("Test plan execution failed: Expected result unknown, generic failure assertion."))
                                  sleepStep)))))))))))))))

def runTC008 (w : World) : Option PExc × ScriptState := runScript tc008Body w

/-- TC011_Settings_Privacy_and_Data_Management_Controls.py: a scroll
attempt, seven navigations, another scroll attempt, a final navigation,
then an unconditional failing assert. -/
def tc011Body (w : World) : M :=
  seqM (prologue w)
    (seqM (wheelWindow tc011Names)
      (seqM (gotoStep w 1 ("http://localhost:8081/"))
        (seqM (gotoStep w 2 ("http://localhost:8081"))
          (seqM (gotoStep w 3 ("http://localhost:8081/settings"))
            (seqM (gotoStep w 4 ("http://localhost:8081/user/settings"))
              (seqM (gotoStep w 5 ("http://localhost:8081/profile/settings"))
                (seqM (gotoStep w 6 ("http://localhost:8081"))
                  (seqM (wheelWindow tc011Names)
                    (seqM (gotoStep w 7 ("http://localhost:8081"))
                      (seqM (assertFalseStep ("Test plan execution failed: generic failure assertion."))
                        sleepStep))))))))))

def runTC011 (w : World) : Option PExc × ScriptState := runScript tc011Body w

/-! ### TC013 assertion block

Transcription of lines 82-95 of
TC013_Data_Access_Security_and_Anonymized_Analytics.py.  Every value the
block reads is a locally assigned constant; the block performs no await
and reads no page or browser state, which is why its embedding ignores
the `PageState` argument. -/

/-- `response_status = 401` -/
def response_status : Nat := 401

/-- `logged_in_user_id = 'user123'` -/
def logged_in_user_id : String := "user123"

/-- `returned_user_id = 'user123'` -/
def returned_user_id : String := "user123"

/-- Keys of `aggregated_data = {'trend': 'positive', 'count': 100}`
(the `field not in aggregated_data` test only consults the keys). -/
def aggregated_data_keys : List String := ["trend", "count"]

/-- `pii_fields = ['name', 'email', 'phone', 'address']` -/
def pii_fields : List String := ["name", "email", "phone", "address"]

/-- `for field in pii_fields: assert field not in aggregated_data, ...`
— sequential, stopping at the first failing assert. -/
def piiLoop : List String → Option PExc
  | [] => none
  | f :: rest =>
    if f ∈ aggregated_data_keys then some (.assertError ("PII field present in aggregated analytics data"))
    else piiLoop rest

/-- The whole assertion block of TC013, as a function of the final page
state it could in principle observe. -/
def tc013AssertBlock (_finalPage : PageState) : Option PExc :=
  if response_status ∈ [401, 403] then
    (if returned_user_id == logged_in_user_id then piiLoop pii_fields
     else some (.assertError ("Returned data user id does not match logged-in user id")))
  else some (.assertError ("Expected access denied status code 401 or 403"))

/-- The TC013 assertion block as a statement of the script, evaluated
against the final page state of the run. -/
def assertBlockStep (w : World) : M := fun s =>
  match tc013AssertBlock w.finalPage with
  | none => (none, emit .assertBlockPassed s)
  | some e => (some e, s)

/-- The statements of TC013 preceding the scroll attempt at line 55:
the prologue and the first click. -/
def tc013Pre (w : World) : M := seqM (prologue w) (clickStep w 0)

/-- TC013_Data_Access_Security_and_Anonymized_Analytics.py: a click, a
scroll attempt, four more clicks, the constant assertion block, then a
sleep. -/
def tc013Body (w : World) : M :=
  seqM (tc013Pre w)
    (seqM (wheelWindow tc013Names)
      (seqM (clickStep w 1)
        (seqM (clickStep w 2)
          (seqM (clickStep w 3)
            (seqM (clickStep w 4)
              (seqM (assertBlockStep w) sleepStep))))))

def runTC013 (w : World) : Option PExc × ScriptState := runScript tc013Body w

/-- TC014_Performance_Under_Load_and_Low_end_Devices.py: four
navigations, four CAPTCHA clicks, then an unconditional failing assert.
This is the only one of the failing-assert scripts with no `window`
reference, so its terminal assert is reachable. -/
def tc014Body (w : World) : M :=
  seqM (prologue w)
    (seqM (gotoStep w 1 ("http://localhost:8081/"))
      (seqM (gotoStep w 2 ("http://localhost:8081/debug"))
        (seqM (gotoStep w 3 ("http://localhost:8081/"))
          (seqM (gotoStep w 4 ("http://localhost:8081/logs"))
            (seqM (clickStep w 0)
              (seqM (clickStep w 1)
                (seqM (clickStep w 2)
                  (seqM (clickStep w 3)
                    (seqM (assertFalseStep ("Test plan execution failed: app did not load or respond as expected on low-end device emulator."))
                      sleepStep)))))))))

def runTC014 (w : World) : Option PExc × ScriptState := runScript tc014Body w

def tc014AllOk (w : World) : Bool :=
  prologueOk w && w.mainLoadOk && w.gotoOk 1 && w.gotoOk 2 && w.gotoOk 3 && w.gotoOk 4 &&
    w.clickOk 0 && w.clickOk 1 && w.clickOk 2 && w.clickOk 3

/-! ## Derived descriptions of the traces -/

/-- Events emitted by the frame loop over frames `l`, starting at index
`i`: every frame is attempted; a frame that settles also emits its
loaded event. -/
def frameEvents : List Bool → Nat → List Event
  | [], _ => []
  | ok :: rest, i =>
    .frameWaitAttempted i :: ((if ok then [.frameLoaded i] else []) ++ frameEvents rest (i + 1))

/-- The events the prologue emits when acquisition and the first goto
succeed. -/
def prologueEvents (w : World) : List Event :=
  [.pwStarted, .browserLaunched, .contextCreated, .pageCreated,
   .gotoIssued ("http://localhost:8081")]
    ++ (if w.mainLoadOk then [.loadStateWaited] else []) ++ frameEvents w.frames 0

/-- The state after a fully successful prologue. -/
def readyState (w : World) : ScriptState :=
  { pw := true, browser := true, context := true, events := prologueEvents w, runLog := [] }

/-- The close events the `finally` block emits for a given body-exit
state when every close succeeds: one close per acquired resource, in
the order context, browser, engine. -/
def tdEvents (s : ScriptState) : List Event :=
  (if s.context then [.contextClosed] else []) ++ (if s.browser then [.browserClosed] else [])
    ++ (if s.pw then [.pwStopped] else [])

/-! ## Helper lemmas -/

theorem seqM_of_none {a b : M} {s s' : ScriptState} (h : a s = (none, s')) :
    seqM a b s = b s' := by
  unfold seqM
  rw [h]

theorem seqM_of_some {a b : M} {s s' : ScriptState} {e : PExc} (h : a s = (some e, s')) :
    seqM a b s = (some e, s') := by
  unfold seqM
  rw [h]

theorem frameLoopAux_eq (l : List Bool) (i : Nat) (s : ScriptState) :
    frameLoopAux l i s = (none, { s with events := s.events ++ frameEvents l i }) := by
  induction l generalizing i s with
  | nil => simp [frameLoopAux, pureOk, frameEvents]
  | cons ok rest ih =>
    cases ok <;>
      simp [frameLoopAux, tryPass, rawFrameWait, seqM, frameEvents, ih, emit]

theorem prologue_ok_eq (w : World) (h1 : w.startOk = true) (h2 : w.launchOk = true)
    (h3 : w.newContextOk = true) (h4 : w.newPageOk = true) (h5 : w.gotoOk 0 = true) :
    prologue w initState = (none, readyState w) := by
  cases hm : w.mainLoadOk <;>
    simp [prologue, startPw, launchBrowser, newContext, newPage, gotoStep, mainLoadWait,
      tryPass, rawMainLoadWait, frameLoop, seqM, h1, h2, h3, h4, h5, hm, frameLoopAux_eq,
      readyState, prologueEvents, emit, initState]

theorem teardown_all_ok (w : World) (s : ScriptState) (hc : w.contextCloseOk = true)
    (hb : w.browserCloseOk = true) (hp : w.pwStopOk = true) :
    teardown w s = (none, { s with events := s.events ++ tdEvents s }) := by
  obtain ⟨spw, sbr, sctx, sev, slog⟩ := s
  cases sctx <;> cases sbr <;> cases spw <;>
    simp [teardown, closeStep, seqM, hc, hb, hp, tdEvents, emit]

theorem teardown_ctx_fail (w : World) (s : ScriptState) (hc : w.contextCloseOk = false)
    (hs : s.context = true) : teardown w s = (some PExc.pwError, s) := by
  simp [teardown, closeStep, seqM, hc, hs]

theorem frameEvents_attempt_mem (l : List Bool) (i j : Nat) (h : j < l.length) :
    Event.frameWaitAttempted (i + j) ∈ frameEvents l i := by
  induction l generalizing i j with
  | nil => simp at h
  | cons ok rest ih =>
    cases j with
    | zero => simp [frameEvents]
    | succ j' =>
      have hj : j' < rest.length := by simpa using h
      have hmem := ih (i + 1) j' hj
      have harith : i + 1 + j' = i + (j' + 1) := by omega
      rw [harith] at hmem
      cases ok <;> simp [frameEvents, List.mem_cons, List.mem_append, hmem]

theorem frameEvents_no_textRead (l : List Bool) (i j : Nat) :
    Event.textRead j ∉ frameEvents l i := by
  induction l generalizing i with
  | nil => simp [frameEvents]
  | cons ok rest ih =>
    cases ok <;> simp [frameEvents, ih]

theorem prologueEvents_no_textRead (w : World) (j : Nat) :
    Event.textRead j ∉ prologueEvents w := by
  cases hm : w.mainLoadOk <;> simp [prologueEvents, hm, frameEvents_no_textRead]

theorem frameEvents_no_assertionChecked (l : List Bool) (i j : Nat) (p : Bool) :
    Event.assertionChecked j p ∉ frameEvents l i := by
  induction l generalizing i with
  | nil => simp [frameEvents]
  | cons ok rest ih =>
    cases ok <;> simp [frameEvents, ih]

theorem prologueEvents_no_assertionChecked (w : World) (j : Nat) (p : Bool) :
    Event.assertionChecked j p ∉ prologueEvents w := by
  cases hm : w.mainLoadOk <;> simp [prologueEvents, hm, frameEvents_no_assertionChecked]

theorem seqM_ne_none {b : M} (a : M) (h : ∀ t, (b t).1 ≠ none) (s : ScriptState) :
    (seqM a b s).1 ≠ none := by
  unfold seqM
  cases hr : a s with
  | mk e s' =>
    cases e with
    | none => exact h s'
    | some e' => simp

theorem runScript_ne_none (b : World → M) (w : World) (h : (b w initState).1 ≠ none) :
    (runScript b w).1 ≠ none := by
  unfold runScript afterTeardown
  cases ht : teardown w (b w initState).2 with
  | mk et st =>
    cases et with
    | none => simpa using h
    | some e' => simp

/-! ## Concrete worlds used as witnesses and counterexamples -/

/-- A world where every awaited operation succeeds, with one frame in
the frame tree and every locator read returning the text its assert
expects. -/
def allOkWorld : World :=
  { startOk := true, launchOk := true, newContextOk := true, newPageOk := true,
    gotoOk := fun _ => true, mainLoadOk := true, frames := [true],
    clickOk := fun _ => true,
    textContent := fun i => if i = 0 then some tc006Needle0 else
      (if i = 1 then some tc006Needle1 else some tc006Needle2),
    finalPage := { url := "http://localhost:8081", content := "" },
    contextCloseOk := true, browserCloseOk := true, pwStopOk := true }

/-! ## Claims -/

/-- C1: for every run of a scenario script, whatever exit path the body
takes (normal completion, a failed assertion, or an exception raised at
any point, including during session acquisition), teardown is performed
exactly once: the final trace is the body trace followed by exactly one
close per resource the body actually acquired, in the fixed order
context, then browser, then the playwright engine, and a resource that
was never acquired (still None) is not closed.  Stated for an arbitrary
script body over the shared scaffolding `runScript`, hence for each of
the six scripts; the closes themselves succeeding is assumed (teardown
failures are claim C4). -/
theorem c1_teardown_exactly_once_ordered (b : World → M) (w : World)
    (hc : w.contextCloseOk = true) (hb : w.browserCloseOk = true) (hp : w.pwStopOk = true) :
    runScript b w =
      ((b w initState).1,
       { (b w initState).2 with
          events := (b w initState).2.events ++ tdEvents (b w initState).2 }) := by
  unfold runScript afterTeardown
  rw [teardown_all_ok w _ hc hb hp]

theorem c1_teardown_exactly_once_ordered_witness :
    runScript tc006Body allOkWorld =
      ((tc006Body allOkWorld initState).1,
       { (tc006Body allOkWorld initState).2 with
          events := (tc006Body allOkWorld initState).2.events
            ++ tdEvents (tc006Body allOkWorld initState).2 }) :=
  c1_teardown_exactly_once_ordered tc006Body allOkWorld rfl rfl rfl

/-- C9: for every run in which launching the browser engine raises, the
scenario aborts immediately: the whole-run trace is exactly the start
event followed by the engine stop of teardown — no navigation, wheel,
click or locator event ever appears — and the body error propagates
after teardown ran. -/
theorem c9_launch_failure_aborts_to_teardown (w : World) (hs : w.startOk = true)
    (hl : w.launchOk = false) (hp : w.pwStopOk = true) :
    runTC005 w =
      (some PExc.pwError,
       { pw := true, browser := false, context := false,
         events := [Event.pwStarted, Event.pwStopped], runLog := [] }) := by
  simp [runTC005, runScript, afterTeardown, tc005Body, prologue, startPw, launchBrowser,
    seqM, hs, hl, teardown, closeStep, hp, emit, initState]

def c9World : World := { allOkWorld with launchOk := false }

theorem c9_launch_failure_witness :
    runTC005 c9World =
      (some PExc.pwError,
       { pw := true, browser := false, context := false,
         events := [Event.pwStarted, Event.pwStopped], runLog := [] }) :=
  c9_launch_failure_aborts_to_teardown c9World rfl rfl rfl

/-- C5: the name `window` is not bound anywhere in TC005, TC008, TC011
or TC013, and in each of these scripts every execution that reaches the
first `await page.mouse.wheel(0, window.innerHeight)` statement (that
is, every execution on which the statements before it completed without
raising) raises `NameError` there, before any wheel call is issued: the
body result is exactly the NameError paired with the state reached just
before the statement, so the trace gains no wheel event and every later
statement of the try block is unreachable. -/
theorem c5_window_name_error :
    ((("window") ∉ tc005Names) ∧ (("window") ∉ tc008Names) ∧ (("window") ∉ tc011Names) ∧
      (("window") ∉ tc013Names)) ∧
    (∀ w : World, (prologue w initState).1 = none →
      tc005Body w initState = (some (PExc.nameError ("window")), (prologue w initState).2)) ∧
    (∀ w : World, (prologue w initState).1 = none →
      tc008Body w initState = (some (PExc.nameError ("window")), (prologue w initState).2)) ∧
    (∀ w : World, (prologue w initState).1 = none →
      tc011Body w initState = (some (PExc.nameError ("window")), (prologue w initState).2)) ∧
    (∀ w : World, (tc013Pre w initState).1 = none →
      tc013Body w initState = (some (PExc.nameError ("window")), (tc013Pre w initState).2)) := by
  refine ⟨⟨by decide, by decide, by decide, by decide⟩, ?_, ?_, ?_, ?_⟩
  · intro w h
    rcases hpe : prologue w initState with ⟨e, s'⟩
    rw [hpe] at h
    simp at h
    subst h
    unfold tc005Body
    rw [seqM_of_none hpe]
    have hw : wheelWindow tc005Names s' = (some (PExc.nameError ("window")), s') := by
      unfold wheelWindow
      rw [if_neg (by decide)]
    rw [seqM_of_some hw]
  · intro w h
    rcases hpe : prologue w initState with ⟨e, s'⟩
    rw [hpe] at h
    simp at h
    subst h
    unfold tc008Body
    rw [seqM_of_none hpe]
    have hw : wheelWindow tc008Names s' = (some (PExc.nameError ("window")), s') := by
      unfold wheelWindow
      rw [if_neg (by decide)]
    rw [seqM_of_some hw]
  · intro w h
    rcases hpe : prologue w initState with ⟨e, s'⟩
    rw [hpe] at h
    simp at h
    subst h
    unfold tc011Body
    rw [seqM_of_none hpe]
    have hw : wheelWindow tc011Names s' = (some (PExc.nameError ("window")), s') := by
      unfold wheelWindow
      rw [if_neg (by decide)]
    rw [seqM_of_some hw]
  · intro w h
    rcases hpe : tc013Pre w initState with ⟨e, s'⟩
    rw [hpe] at h
    simp at h
    subst h
    unfold tc013Body
    rw [seqM_of_none hpe]
    have hw : wheelWindow tc013Names s' = (some (PExc.nameError ("window")), s') := by
      unfold wheelWindow
      rw [if_neg (by decide)]
    rw [seqM_of_some hw]

theorem c5_window_name_error_witness :
    tc005Body allOkWorld initState =
      (some (PExc.nameError ("window")), (prologue allOkWorld initState).2) :=
  c5_window_name_error.2.1 allOkWorld (by decide)

theorem wheel_head_ne_none {names : List String} (hnm : ("window") ∉ names) (b : M)
    (t : ScriptState) : (seqM (wheelWindow names) b t).1 ≠ none := by
  have hw : wheelWindow names t = (some (PExc.nameError ("window")), t) := by
    unfold wheelWindow
    rw [if_neg hnm]
  rw [seqM_of_some hw]
  simp

theorem assertFalse_head_ne_none (msg : String) (b : M) (t : ScriptState) :
    (seqM (assertFalseStep msg) b t).1 ≠ none := by
  have ha : assertFalseStep msg t = (some (PExc.assertError msg), t) := rfl
  rw [seqM_of_some ha]
  simp

theorem tc005Body_ne_none (w : World) (s : ScriptState) : (tc005Body w s).1 ≠ none := by
  unfold tc005Body
  apply seqM_ne_none
  intro t
  exact wheel_head_ne_none (by decide) _ t

theorem tc008Body_ne_none (w : World) (s : ScriptState) : (tc008Body w s).1 ≠ none := by
  unfold tc008Body
  apply seqM_ne_none
  intro t
  exact wheel_head_ne_none (by decide) _ t

theorem tc011Body_ne_none (w : World) (s : ScriptState) : (tc011Body w s).1 ≠ none := by
  unfold tc011Body
  apply seqM_ne_none
  intro t
  exact wheel_head_ne_none (by decide) _ t

theorem tc014Body_ne_none (w : World) (s : ScriptState) : (tc014Body w s).1 ≠ none := by
  unfold tc014Body
  apply seqM_ne_none
  intro t1
  apply seqM_ne_none
  intro t2
  apply seqM_ne_none
  intro t3
  apply seqM_ne_none
  intro t4
  apply seqM_ne_none
  intro t5
  apply seqM_ne_none
  intro t6
  apply seqM_ne_none
  intro t7
  apply seqM_ne_none
  intro t8
  apply seqM_ne_none
  intro t9
  exact assertFalse_head_ne_none _ _ t9

/-- C7: the terminal step of the interaction sequence of TC005, TC008,
TC011 and TC014 is an unconditional failing assert, so none of these
four scripts can ever complete successfully: every run of each of them
ends with some exception.  In TC014 (the one of the four whose terminal
assert is reachable, having no `window` reference), every run on which
all preceding steps complete without raising ends with exactly the
AssertionError of its `assert False` statement. -/
theorem c7_terminal_assert_false :
    (∀ w : World, (runTC005 w).1 ≠ none) ∧ (∀ w : World, (runTC008 w).1 ≠ none) ∧
    (∀ w : World, (runTC011 w).1 ≠ none) ∧ (∀ w : World, (runTC014 w).1 ≠ none) ∧
    (∀ w : World, tc014AllOk w = true →
      (tc014Body w initState).1 = some (PExc.assertError
        ("Test plan execution failed: app did not load or respond as expected on low-end device emulator."))) := by
  refine ⟨fun w => runScript_ne_none _ w (tc005Body_ne_none w initState),
    fun w => runScript_ne_none _ w (tc008Body_ne_none w initState),
    fun w => runScript_ne_none _ w (tc011Body_ne_none w initState),
    fun w => runScript_ne_none _ w (tc014Body_ne_none w initState), ?_⟩
  intro w h
  simp only [tc014AllOk, prologueOk, Bool.and_eq_true] at h
  obtain ⟨⟨⟨⟨⟨⟨⟨⟨⟨⟨⟨⟨⟨h1, h2⟩, h3⟩, h4⟩, h5⟩, hm⟩, hg1⟩, hg2⟩, hg3⟩, hg4⟩, hc0⟩, hc1⟩, hc2⟩, hc3⟩ := h
  unfold tc014Body
  rw [seqM_of_none (prologue_ok_eq w h1 h2 h3 h4 h5)]
  simp [seqM, gotoStep, clickStep, assertFalseStep, hg1, hg2, hg3, hg4, hc0, hc1, hc2, hc3, emit]

theorem c7_terminal_assert_false_witness :
    (tc014Body allOkWorld initState).1 = some (PExc.assertError
      ("Test plan execution failed: app did not load or respond as expected on low-end device emulator.")) :=
  c7_terminal_assert_false.2.2.2.2 allOkWorld (by decide)

/-- C10: the assertion block of TC013 reads only locally hardcoded
constants and never reads browser or page state: for any two final page
states it produces the identical outcome, every execution that reaches
it sees all of its assertions pass, and as a statement of the script it
always completes normally whatever the final page of the run is. -/
theorem c10_tc013_assert_block_state_independent :
    (∀ s1 s2 : PageState, tc013AssertBlock s1 = tc013AssertBlock s2) ∧
    (∀ s : PageState, tc013AssertBlock s = none) ∧
    (∀ (w : World) (s : ScriptState), assertBlockStep w s = (none, emit Event.assertBlockPassed s)) :=
  ⟨fun _ _ => rfl, fun _ => rfl, fun _ _ => rfl⟩

def c3World : World := { allOkWorld with gotoOk := fun _ => false }

/-- C3 counterexample: in a run of TC005 whose initial `page.goto` times
out, nothing is recorded (`runLog` stays empty, and no TimedOut entry of
any kind exists), and execution does not continue to the next step: no
load-state wait, frame wait, or any later step event appears — the
trace jumps straight to the teardown closes and the error propagates.
This refutes the claim that a Navigate timeout is recorded as TimedOut
and execution continues. -/
theorem c3_counterexample_navigate_timeout :
    runTC005 c3World =
      (some PExc.pwError,
       { pw := true, browser := true, context := true,
         events := [Event.pwStarted, Event.browserLaunched, Event.contextCreated,
           Event.pageCreated, Event.contextClosed, Event.browserClosed, Event.pwStopped],
         runLog := [] }) := by
  decide

/-- C3 amended: a Navigate step whose `page.goto` raises a navigation
timeout is not recorded anywhere and aborts the remainder of the
scenario: the run ends with the propagated playwright error and the
trace contains only the acquisition events followed by the teardown
closes (only the guarded `wait_for_load_state` waits tolerate timeouts,
and they cannot run after the failed goto). -/
theorem c3_amended_navigate_timeout_aborts (w : World) (h1 : w.startOk = true)
    (h2 : w.launchOk = true) (h3 : w.newContextOk = true) (h4 : w.newPageOk = true)
    (hg : w.gotoOk 0 = false) (hc : w.contextCloseOk = true) (hb : w.browserCloseOk = true)
    (hp : w.pwStopOk = true) :
    runTC005 w =
      (some PExc.pwError,
       { pw := true, browser := true, context := true,
         events := [Event.pwStarted, Event.browserLaunched, Event.contextCreated,
           Event.pageCreated, Event.contextClosed, Event.browserClosed, Event.pwStopped],
         runLog := [] }) := by
  simp [runTC005, runScript, afterTeardown, tc005Body, prologue, startPw, launchBrowser,
    newContext, newPage, gotoStep, seqM, h1, h2, h3, h4, hg, teardown, closeStep, hc, hb, hp,
    emit, initState]

def c3WitnessWorld : World := { allOkWorld with gotoOk := fun _ => false, frames := [] }

theorem c3_amended_navigate_timeout_aborts_witness :
    runTC005 c3WitnessWorld =
      (some PExc.pwError,
       { pw := true, browser := true, context := true,
         events := [Event.pwStarted, Event.browserLaunched, Event.contextCreated,
           Event.pageCreated, Event.contextClosed, Event.browserClosed, Event.pwStopped],
         runLog := [] }) :=
  c3_amended_navigate_timeout_aborts c3WitnessWorld rfl rfl rfl rfl rfl rfl rfl rfl

def c4World : World := { allOkWorld with contextCloseOk := false }

/-- C4 counterexample: in a run of TC005 where the body raised a
NameError and `context.close()` then fails, the teardown error is not
swallowed: it propagates as the overall result, it replaces (masks) the
body NameError, and the remaining teardown steps are skipped — no
browser close and no engine stop appear in the trace.  This refutes the
claim that teardown errors are swallowed, never mask an earlier error,
and never prevent the remaining teardown steps. -/
theorem c4_counterexample_teardown_error_propagates :
    (tc005Body c4World initState).1 = some (PExc.nameError ("window")) ∧
    (runTC005 c4World).1 = some PExc.pwError ∧
    Event.browserClosed ∉ (runTC005 c4World).2.events ∧
    Event.pwStopped ∉ (runTC005 c4World).2.events := by
  refine ⟨by decide, by decide, by decide, by decide⟩

/-- C4 amended: an error raised while closing the context inside the
`finally` block propagates to the caller, replaces whatever error the
body had raised, and prevents the remaining teardown steps: the final
state is exactly the body exit state, with no close event added. -/
theorem c4_amended_teardown_error_masks (b : World → M) (w : World)
    (hc : w.contextCloseOk = false) (hctx : (b w initState).2.context = true) :
    runScript b w = (some PExc.pwError, (b w initState).2) := by
  unfold runScript afterTeardown
  rw [teardown_ctx_fail w _ hc hctx]

def c4WitnessWorld : World := { allOkWorld with contextCloseOk := false, frames := [] }

theorem c4_amended_teardown_error_masks_witness :
    runScript tc005Body c4WitnessWorld = (some PExc.pwError, (tc005Body c4WitnessWorld initState).2) :=
  c4_amended_teardown_error_masks tc005Body c4WitnessWorld rfl (by decide)

def c6World : World := { allOkWorld with frames := [false, true] }

/-- C6 counterexample: in a run of TC005 where the first frame never
settles and the second one does, the timeout on the first frame is
caught and iteration does proceed to the sibling (both frame waits are
attempted and the run continues past the loop), but nothing is recorded
anywhere: `runLog` is empty and the trace holds no diagnostic entry for
the timed-out frame.  This refutes the "is caught and recorded" part of
the claim. -/
theorem c6_counterexample_frame_timeout_unrecorded :
    runTC005 c6World =
      (some (PExc.nameError ("window")),
       { pw := true, browser := true, context := true,
         events := [Event.pwStarted, Event.browserLaunched, Event.contextCreated,
           Event.pageCreated, Event.gotoIssued ("http://localhost:8081"), Event.loadStateWaited,
           Event.frameWaitAttempted 0, Event.frameWaitAttempted 1, Event.frameLoaded 1,
           Event.contextClosed, Event.browserClosed, Event.pwStopped],
         runLog := [] }) := by
  decide

/-- C6 amended: a timeout while waiting for a frame load-completion
signal is caught and silently discarded — the loop never raises, the
only state change is the trace of attempted (and settled) frame waits,
`runLog` is left untouched (nothing is recorded) — and iteration
proceeds to the remaining frames: every frame of the enumerated tree is
attempted, whatever the others did. -/
theorem c6_amended_frame_timeouts_tolerated_unrecorded :
    (∀ (l : List Bool) (i : Nat) (s : ScriptState),
      frameLoopAux l i s = (none, { s with events := s.events ++ frameEvents l i })) ∧
    (∀ (l : List Bool) (i j : Nat), j < l.length →
      Event.frameWaitAttempted (i + j) ∈ frameEvents l i) :=
  ⟨frameLoopAux_eq, frameEvents_attempt_mem⟩

theorem c6_amended_frame_timeouts_witness :
    Event.frameWaitAttempted 0 ∈ frameEvents [false] 0 :=
  c6_amended_frame_timeouts_tolerated_unrecorded.2 [false] 0 0 (by decide)

def c2World : World := { allOkWorld with clickOk := fun _ => false }

/-- C2 counterexample: in a run of TC006 whose Click step targets an
absent element (the locator resolves nothing within the click timeout),
nothing is recorded as ElementNotFound or anything else (`runLog` stays
empty), and execution does not continue to the next step: no locator
read or assertion event follows — the playwright error propagates and
the trace jumps straight to the teardown closes.  This refutes the
claim that such a failure is recorded and execution continues. -/
theorem c2_counterexample_click_not_tolerated :
    runTC006 c2World =
      (some PExc.pwError,
       { pw := true, browser := true, context := true,
         events := [Event.pwStarted, Event.browserLaunched, Event.contextCreated,
           Event.pageCreated, Event.gotoIssued ("http://localhost:8081"), Event.loadStateWaited,
           Event.frameWaitAttempted 0, Event.frameLoaded 0,
           Event.contextClosed, Event.browserClosed, Event.pwStopped],
         runLog := [] }) ∧
    Event.textRead 0 ∉ (runTC006 c2World).2.events ∧
    (runTC006 c2World).2.runLog = [] := by
  refine ⟨by decide, by decide, by decide⟩

/-- C2 amended: a Click step whose locator resolves nothing within the
click timeout raises an unhandled playwright error: the failure is not
recorded anywhere, the remaining statements of the try block are
skipped (no locator read is ever performed), and control transfers to
teardown, which closes every acquired resource and lets the error
propagate. -/
theorem c2_amended_click_timeout_aborts (w : World) (h1 : w.startOk = true)
    (h2 : w.launchOk = true) (h3 : w.newContextOk = true) (h4 : w.newPageOk = true)
    (h5 : w.gotoOk 0 = true) (hck : w.clickOk 0 = false) (hc : w.contextCloseOk = true)
    (hb : w.browserCloseOk = true) (hp : w.pwStopOk = true) :
    runTC006 w =
      (some PExc.pwError,
       { pw := true, browser := true, context := true,
         events := prologueEvents w ++ [Event.contextClosed, Event.browserClosed, Event.pwStopped],
         runLog := [] }) ∧
    ∀ i : Nat, Event.textRead i ∉ (runTC006 w).2.events := by
  have hclick : clickStep w 0 (readyState w) = (some PExc.pwError, readyState w) := by
    simp [clickStep, hck]
  have hrun : runTC006 w =
      (some PExc.pwError,
       { pw := true, browser := true, context := true,
         events := prologueEvents w ++ [Event.contextClosed, Event.browserClosed, Event.pwStopped],
         runLog := [] }) := by
    unfold runTC006 runScript tc006Body
    rw [seqM_of_none (prologue_ok_eq w h1 h2 h3 h4 h5)]
    rw [seqM_of_some hclick]
    unfold afterTeardown
    rw [teardown_all_ok w _ hc hb hp]
    simp [readyState, tdEvents]
  refine ⟨hrun, ?_⟩
  intro i
  rw [hrun]
  simp [prologueEvents_no_textRead w i]

def c2WitnessWorld : World := { allOkWorld with clickOk := fun _ => false, frames := [] }

theorem c2_amended_click_timeout_aborts_witness :
    runTC006 c2WitnessWorld =
      (some PExc.pwError,
       { pw := true, browser := true, context := true,
         events := prologueEvents c2WitnessWorld
           ++ [Event.contextClosed, Event.browserClosed, Event.pwStopped],
         runLog := [] }) ∧
    ∀ i : Nat, Event.textRead i ∉ (runTC006 c2WitnessWorld).2.events :=
  c2_amended_click_timeout_aborts c2WitnessWorld rfl rfl rfl rfl rfl rfl rfl rfl rfl

def c8World : World :=
  { allOkWorld with
    textContent := fun i => if i = 0 then some ("") else
      (if i = 1 then some tc006Needle1 else some tc006Needle2) }

/-- C8 counterexample: in a run of TC006 whose first assertion fails
(the read text does not contain the expected message), the second and
third assertions — which would have passed, their reads being set up to
return exactly the expected text — are never evaluated: no second
locator read and no second assertion check appears in the trace, and
the AssertionError of the first assert is the result of the run.  This
refutes the claim that each assertion is evaluated independently and
that a failing assertion still lets every subsequent assertion run. -/
theorem c8_counterexample_assertions_fail_fast :
    (runTC006 c8World).1 = some (PExc.assertError tc006Needle0) ∧
    Event.assertionChecked 0 false ∈ (runTC006 c8World).2.events ∧
    Event.textRead 1 ∉ (runTC006 c8World).2.events ∧
    Event.assertionChecked 1 true ∉ (runTC006 c8World).2.events ∧
    Event.assertionChecked 1 false ∉ (runTC006 c8World).2.events := by
  refine ⟨by decide, by decide, by decide, by decide, by decide⟩

/-- C8 amended: the assertions of the final block are evaluated
sequentially and fail-fast: an assertion is evaluated only if every
earlier one passed, and the first failing assertion aborts the rest of
the block — in TC006, if the first read returns text not containing the
expected message, the run ends with that AssertionError, having checked
exactly one assertion, and the later assertions are never evaluated. -/
theorem c8_amended_assertions_fail_fast (w : World) (h1 : w.startOk = true)
    (h2 : w.launchOk = true) (h3 : w.newContextOk = true) (h4 : w.newPageOk = true)
    (h5 : w.gotoOk 0 = true) (hck : w.clickOk 0 = true) (t : String)
    (ht : w.textContent 0 = some t) (hmiss : strContainsSub t tc006Needle0 = false)
    (hc : w.contextCloseOk = true) (hb : w.browserCloseOk = true) (hp : w.pwStopOk = true) :
    runTC006 w =
      (some (PExc.assertError tc006Needle0),
       { pw := true, browser := true, context := true,
         events := prologueEvents w ++ [Event.clicked 0, Event.textRead 0,
           Event.assertionChecked 0 false, Event.contextClosed, Event.browserClosed,
           Event.pwStopped],
         runLog := [] }) ∧
    Event.textRead 1 ∉ (runTC006 w).2.events ∧
    Event.assertionChecked 1 true ∉ (runTC006 w).2.events := by
  have hclick : clickStep w 0 (readyState w) = (none, emit (Event.clicked 0) (readyState w)) := by
    simp [clickStep, hck]
  have hread : readTextAssert w 0 tc006Needle0 (emit (Event.clicked 0) (readyState w)) =
      (some (PExc.assertError tc006Needle0),
       emit (Event.assertionChecked 0 false)
         (emit (Event.textRead 0) (emit (Event.clicked 0) (readyState w)))) := by
    simp [readTextAssert, ht, hmiss]
  have hrun : runTC006 w =
      (some (PExc.assertError tc006Needle0),
       { pw := true, browser := true, context := true,
         events := prologueEvents w ++ [Event.clicked 0, Event.textRead 0,
           Event.assertionChecked 0 false, Event.contextClosed, Event.browserClosed,
           Event.pwStopped],
         runLog := [] }) := by
    unfold runTC006 runScript tc006Body
    rw [seqM_of_none (prologue_ok_eq w h1 h2 h3 h4 h5)]
    rw [seqM_of_none hclick]
    rw [seqM_of_some hread]
    unfold afterTeardown
    rw [teardown_all_ok w _ hc hb hp]
    simp [readyState, tdEvents, emit]
  refine ⟨hrun, ?_, ?_⟩
  · rw [hrun]
    simp [prologueEvents_no_textRead w 1]
  · rw [hrun]
    simp [prologueEvents_no_assertionChecked w 1 true]

def c8WitnessWorld : World :=
  { allOkWorld with
    textContent := fun i => if i = 0 then some ("page still loading") else
      (if i = 1 then some tc006Needle1 else some tc006Needle2) }

theorem c8_amended_assertions_fail_fast_witness :
    runTC006 c8WitnessWorld =
      (some (PExc.assertError tc006Needle0),
       { pw := true, browser := true, context := true,
         events := prologueEvents c8WitnessWorld ++ [Event.clicked 0, Event.textRead 0,
           Event.assertionChecked 0 false, Event.contextClosed, Event.browserClosed,
           Event.pwStopped],
         runLog := [] }) ∧
    Event.textRead 1 ∉ (runTC006 c8WitnessWorld).2.events ∧
    Event.assertionChecked 1 true ∉ (runTC006 c8WitnessWorld).2.events :=
  c8_amended_assertions_fail_fast c8WitnessWorld rfl rfl rfl rfl rfl rfl
    ("page still loading") rfl (by decide) rfl rfl rfl
